import Mathlib

/-!
The `include()` command (`Source/cmIncludeCommand.cxx`).

A shallow embedding of `cmIncludeCommand::InitialPass`.  The command talks to
the makefile, the global generator and `cmSystemTools`; none of them is part of
the file, so they are taken as a record of operations over an abstract world
`W`.  Every call that reaches one of them is written to a trace, in the order
the source makes it, so that "the loader was not invoked" or "the variable was
bound to this value" are statements about the returned outcome.  Where the
source passes `x.c_str()` the callee is given `c_str x`, the string up to its
first NUL character.
-/

namespace cmIncludeCommand

/-- Modelled from the spec: the declaration of `cmPolicies::PolicyStatus`
(`cmPolicies.h`) is not in the sources; these are the five statuses the
spec lists and the `switch` of `InitialPass` distinguishes. -/
inductive PolicyStatus where
  | OLD
  | WARN
  | NEW
  | REQUIRED_IF_USED
  | REQUIRED_ALWAYS
  deriving DecidableEq, Repr

/-- Modelled from the spec: the declaration of `MessageType`
(`cmMessageType.h`) is not in the sources; these are the two severities
`InitialPass` passes to `IssueMessage`. -/
inductive MessageType where
  | AUTHOR_WARNING
  | FATAL_ERROR
  deriving DecidableEq, Repr

/-- One call made by `InitialPass` to the makefile, the global generator
or `cmSystemTools`, with the arguments it was given. -/
inductive Call where
  | GetModulesFile (name : String)
  | IsExportedTargetsFile (path : String)
  | GetPolicyStatus
  | IssueMessage (t : MessageType) (text : String)
  | CreateGenerationObjects
  | GenerateImportFile (path : String)
  | FileExists (path : String)
  | ReadDependentFile (path : String) (noPolicyScope : Bool)
  | AddDefinition (name : String) (value : String)
  | GetFatalErrorOccured
  deriving DecidableEq, Repr

/-- The operations `InitialPass` uses and does not define.  Queries read the
world, commands return the new one.  `FileIsFullPath` and `CollapseFullPath`
are string functions, and the current source directory of the makefile is the
same at both places where the source reads it. -/
structure Host (W : Type) where
  FileIsFullPath : String → Bool
  CollapseFullPath : String → String → String
  GetCurrentSourceDirectory : String
  GetPolicyWarning : String
  GetModulesFile : W → String → String
  IsExportedTargetsFile : W → String → Bool
  GetPolicyStatus : W → PolicyStatus
  FileExists : W → String → Bool
  GetFatalErrorOccured : W → Bool
  IssueMessage : MessageType → String → W → W
  CreateGenerationObjects : W → W
  GenerateImportFile : String → W → W
  ReadDependentFile : String → Bool → W → Bool × W
  AddDefinition : String → String → W → W

/-- The locals that the argument loop of `InitialPass` fills in
(lines 24-27): `fname`, `optional`, `noPolicyScope`, `resultVarName`. -/
structure Parsed where
  fname : String
  optional : Bool
  noPolicyScope : Bool
  resultVarName : String
  deriving DecidableEq, Repr

/-- What one run of `InitialPass` leaves behind: the returned `bool`, the text
given to `SetError` (`none` when `SetError` was not called), the calls made, in
order, and the world after them. -/
structure Outcome (W : Type) where
  ret : Bool
  error : Option String
  calls : List Call
  world : W
  deriving DecidableEq

/-- The string a callee reads through `s.c_str()`: the characters of `s`
before its first NUL character, all of `s` when it has none. -/
def c_str (s : String) : String :=
  ⟨s.data.takeWhile (fun c => c ≠ Char.ofNat 0)⟩

/-- The `for` loop of lines 29-58.  `i` is the index of the head of the
remaining arguments; `RESULT_VARIABLE` takes the next element with `++i`. -/
def scanModifiers : Nat → Parsed → List String → Except String Parsed
  | _, st, [] => .ok st
  | i, st, a :: rest =>
    if a = "OPTIONAL" then
      if st.optional then
        .error "called with invalid arguments: OPTIONAL used twice"
      else
        scanModifiers (i + 1) { st with optional := true } rest
    else if a = "RESULT_VARIABLE" then
      if st.resultVarName ≠ "" then
        .error "called with invalid arguments: only one result variable allowed"
      else
        match rest with
        | v :: rest2 => scanModifiers (i + 2) { st with resultVarName := v } rest2
        | [] => .error "called with no value for RESULT_VARIABLE."
    else if a = "NO_POLICY_SCOPE" then
      scanModifiers (i + 1) { st with noPolicyScope := true } rest
    else if i > 1 then
      .error ("called with invalid argument: " ++ a)
    else
      scanModifiers (i + 1) st rest

/-- Lines 19-58: the size check, the initial values of the locals and the
argument loop. -/
def validateArguments (args : List String) : Except String Parsed :=
  match args with
  | [] => .error "called with wrong number of arguments.  include() only takes one file."
  | f :: rest =>
    if args.length > 4 then
      .error "called with wrong number of arguments.  include() only takes one file."
    else
      scanModifiers 1 { fname := f, optional := false, noPolicyScope := false,
                        resultVarName := "" } rest

/-- Lines 66-74: a name that is not a full path is looked up as a module;
the answer, when not empty, replaces `fname`.  `GetModulesFile` is given
`module.c_str()`. -/
def moduleLookup {W : Type} (h : Host W) (w : W) (fname : String) : String × List Call :=
  if !h.FileIsFullPath fname then
    let module := fname ++ ".cmake"
    let mfile := h.GetModulesFile w (c_str module)
    (if mfile ≠ "" then mfile else fname, [Call.GetModulesFile (c_str module)])
  else
    (fname, [])

/-- Lines 98-104: the text streamed into `e` once `modal` is set. -/
def exportText (fname_abs modal : String) : String :=
  "The file\n  " ++ fname_abs ++ "\nwas generated by the export() command.  It " ++ modal ++
    " not be used as the argument to the include() command.  Use ALIAS targets instead to refer to targets by alternative names.\n"

/-- Lines 81-96: the `switch` on the status of CMP0024, giving `modal`, the
text already in `e` and `messageType`.  `WARN` falls through to the `break`
of `OLD`. -/
def policySwitch {W : Type} (h : Host W) : PolicyStatus → Option String × String × MessageType
  | .WARN => (some "should", h.GetPolicyWarning ++ "\n", .AUTHOR_WARNING)
  | .OLD => (none, "", .AUTHOR_WARNING)
  | .REQUIRED_IF_USED => (some "may", "", .FATAL_ERROR)
  | .REQUIRED_ALWAYS => (some "may", "", .FATAL_ERROR)
  | .NEW => (some "may", "", .FATAL_ERROR)

/-- Lines 79-112: the check for an exported targets file.  The first
component is `true` when the source returns `false` at line 107. -/
def exportGate {W : Type} (h : Host W) (w : W) (fname_abs : String) : Bool × List Call × W :=
  if h.IsExportedTargetsFile w fname_abs then
    match policySwitch h (h.GetPolicyStatus w) with
    | (some modal, e, messageType) =>
      let text := e ++ exportText fname_abs modal
      let w1 := h.IssueMessage messageType text w
      let c := [Call.IsExportedTargetsFile fname_abs, Call.GetPolicyStatus,
                Call.IssueMessage messageType text]
      if messageType = MessageType.FATAL_ERROR then
        (true, c, w1)
      else
        (false, c ++ [Call.CreateGenerationObjects, Call.GenerateImportFile fname_abs],
          h.GenerateImportFile fname_abs (h.CreateGenerationObjects w1))
    | (none, _, _) =>
      (false, [Call.IsExportedTargetsFile fname_abs, Call.GetPolicyStatus,
               Call.CreateGenerationObjects, Call.GenerateImportFile fname_abs],
        h.GenerateImportFile fname_abs (h.CreateGenerationObjects w))
  else
    (false, [Call.IsExportedTargetsFile fname_abs], w)

/-- Lines 114-139: the second collapse, the `OPTIONAL` existence test, the
load, the binding of the result variable and the final error test.  `fname` is
the name after the module lookup, `pre` the calls made so far.  The existence
test is given `listFile` itself; `ReadDependentFile` is given
`listFile.c_str()` and `AddDefinition` is given `fname_abs.c_str()`. -/
def loadAndBind {W : Type} (h : Host W) (p : Parsed) (fname fname_abs : String)
    (pre : List Call) (w : W) : Outcome W :=
  let listFile := h.CollapseFullPath fname h.GetCurrentSourceDirectory
  if p.optional && !h.FileExists w listFile then
    if p.resultVarName ≠ "" then
      { ret := true, error := none,
        calls := pre ++ [Call.FileExists listFile, Call.AddDefinition p.resultVarName "NOTFOUND"],
        world := h.AddDefinition p.resultVarName "NOTFOUND" w }
    else
      { ret := true, error := none, calls := pre ++ [Call.FileExists listFile], world := w }
  else
    let c0 := if p.optional then pre ++ [Call.FileExists listFile] else pre
    let r := h.ReadDependentFile (c_str listFile) p.noPolicyScope w
    let readit := r.1
    let c1 := c0 ++ [Call.ReadDependentFile (c_str listFile) p.noPolicyScope]
    let value := if readit then c_str fname_abs else "NOTFOUND"
    let w2 := if p.resultVarName ≠ "" then h.AddDefinition p.resultVarName value r.2 else r.2
    let c2 := if p.resultVarName ≠ "" then c1 ++ [Call.AddDefinition p.resultVarName value] else c1
    if !p.optional && !readit then
      if !h.GetFatalErrorOccured w2 then
        { ret := false, error := some ("could not find load file:\n  " ++ fname),
          calls := c2 ++ [Call.GetFatalErrorOccured], world := w2 }
      else
        { ret := true, error := none, calls := c2 ++ [Call.GetFatalErrorOccured], world := w2 }
    else
      { ret := true, error := none, calls := c2, world := w2 }

/-- The embedding of `cmIncludeCommand::InitialPass` (lines 16-140), run in
world `w` on the argument list `args`. -/
def InitialPass {W : Type} (h : Host W) (w : W) (args : List String) : Outcome W :=
  match validateArguments args with
  | .error e => { ret := false, error := some e, calls := [], world := w }
  | .ok p =>
    if p.fname = "" then
      { ret := true, error := none,
        calls := [Call.IssueMessage MessageType.AUTHOR_WARNING
                    "include() given empty file name (ignored)."],
        world := h.IssueMessage MessageType.AUTHOR_WARNING
                    "include() given empty file name (ignored)." w }
    else
      let m := moduleLookup h w p.fname
      let fname_abs := h.CollapseFullPath m.1 h.GetCurrentSourceDirectory
      match exportGate h w fname_abs with
      | (true, c, w1) => { ret := false, error := none, calls := m.2 ++ c, world := w1 }
      | (false, c, w1) => loadAndBind h p m.1 fname_abs (m.2 ++ c) w1

/-- Lines 66-77: `fname_abs`, the collapse against the current source
directory of the name left by the module lookup. -/
def resolvedPath {W : Type} (h : Host W) (w : W) (fname : String) : String :=
  h.CollapseFullPath (moduleLookup h w fname).1 h.GetCurrentSourceDirectory

/-- A small concrete world used to run the command: the module table, the
files that exist (and load), the registered export files, the status of
CMP0024, the fatal-error flag, and what has been defined and reported. -/
structure SampleWorld where
  modules : List (String × String)
  files : List String
  exported : List String
  status : PolicyStatus
  fatal : Bool
  defs : List (String × String)
  messages : List (MessageType × String)
  deriving DecidableEq

/-- A host over `SampleWorld`: a path is full when it starts with `/`, a
load succeeds exactly when the file is there, a fatal message raises the flag,
and generating an import file creates it. -/
def sampleHost : Host SampleWorld where
  FileIsFullPath s := s.data.head? == some '/'
  CollapseFullPath p base := if p.data.head? = some '/' then p else base ++ "/" ++ p
  GetCurrentSourceDirectory := "/src"
  GetPolicyWarning := "Policy CMP0024 is not set."
  GetModulesFile w n := (w.modules.lookup n).getD ""
  IsExportedTargetsFile w p := w.exported.contains p
  GetPolicyStatus w := w.status
  FileExists w p := w.files.contains p
  GetFatalErrorOccured w := w.fatal
  IssueMessage t s w :=
    { w with messages := w.messages ++ [(t, s)], fatal := w.fatal || t == MessageType.FATAL_ERROR }
  CreateGenerationObjects w := w
  GenerateImportFile p w := { w with files := p :: w.files }
  ReadDependentFile p _ w := (w.files.contains p, w)
  AddDefinition n v w := { w with defs := (n, v) :: w.defs }

/-- A world with one module `/modules/Mod.cmake`, one file `/src/a.cmake`, no export
file, CMP0024 at `WARN` and no fatal error so far. -/
def sampleWorld : SampleWorld where
  modules := [("Mod.cmake", "/modules/Mod.cmake")]
  files := ["/src/a.cmake", "/modules/Mod.cmake"]
  exported := []
  status := PolicyStatus.WARN
  fatal := false
  defs := []
  messages := []

/-- The world `sampleWorld` after an earlier fatal error has been flagged. -/
def fatalWorld : SampleWorld := { sampleWorld with fatal := true }

/-- The world `sampleWorld` with `/src/exp.cmake` registered as an export
file (it is not on disk until it is generated) and CMP0024 at status `s`. -/
def exportWorld (s : PolicyStatus) : SampleWorld :=
  { sampleWorld with exported := ["/src/exp.cmake"], status := s }

/-- The world `sampleWorld` with a second module, `Locked`, that the module
search finds and the loader cannot read. -/
def lockedModuleWorld : SampleWorld :=
  { sampleWorld with
    modules := [("Mod.cmake", "/modules/Mod.cmake"), ("Locked.cmake", "/modules/Locked.cmake")] }

/-- The host `h` with the status of CMP0024 fixed to `s`; everything else is
as in `h`. -/
def withStatus {W : Type} (h : Host W) (s : PolicyStatus) : Host W :=
  { h with GetPolicyStatus := fun _ => s }

/-! General facts about the embedding -/

/-- After a successful validation with a non-empty name, `InitialPass` is the
module lookup, the export-file gate and the load stage, in that order. -/
theorem InitialPass_of_valid {W : Type} (h : Host W) (w : W) (args : List String) (p : Parsed)
    (hv : validateArguments args = .ok p) (hf : p.fname ≠ "") :
    InitialPass h w args =
      match exportGate h w (resolvedPath h w p.fname) with
      | (true, c, w1) =>
        { ret := false, error := none, calls := (moduleLookup h w p.fname).2 ++ c, world := w1 }
      | (false, c, w1) =>
        loadAndBind h p (moduleLookup h w p.fname).1 (resolvedPath h w p.fname)
          ((moduleLookup h w p.fname).2 ++ c) w1 := by
  simp only [InitialPass, hv, resolvedPath, if_neg hf]

/-- The gate does nothing but the registry query for a path that is not
registered. -/
theorem exportGate_of_not_exported {W : Type} (h : Host W) (w : W) (path : String)
    (hx : h.IsExportedTargetsFile w path = false) :
    exportGate h w path = (false, [Call.IsExportedTargetsFile path], w) := by
  simp [exportGate, hx]

/-- For a path that is not registered the load stage starts in the initial
world. -/
theorem InitialPass_of_not_exported {W : Type} (h : Host W) (w : W) (args : List String)
    (p : Parsed) (hv : validateArguments args = .ok p) (hf : p.fname ≠ "")
    (hx : h.IsExportedTargetsFile w (resolvedPath h w p.fname) = false) :
    InitialPass h w args =
      loadAndBind h p (moduleLookup h w p.fname).1 (resolvedPath h w p.fname)
        ((moduleLookup h w p.fname).2 ++ [Call.IsExportedTargetsFile (resolvedPath h w p.fname)])
        w := by
  rw [InitialPass_of_valid h w args p hv hf, exportGate_of_not_exported h w _ hx]

/-- When the gate does not abort, the load stage runs in the world the gate
left. -/
theorem InitialPass_of_gate_open {W : Type} (h : Host W) (w : W) (args : List String)
    (p : Parsed) (hv : validateArguments args = .ok p) (hf : p.fname ≠ "")
    (hg : (exportGate h w (resolvedPath h w p.fname)).1 = false) :
    InitialPass h w args =
      loadAndBind h p (moduleLookup h w p.fname).1 (resolvedPath h w p.fname)
        ((moduleLookup h w p.fname).2 ++ (exportGate h w (resolvedPath h w p.fname)).2.1)
        (exportGate h w (resolvedPath h w p.fname)).2.2 := by
  rw [InitialPass_of_valid h w args p hv hf]
  rcases hgate : exportGate h w (resolvedPath h w p.fname) with ⟨b, c, w1⟩
  rw [hgate] at hg
  simp only at hg
  subst hg
  rfl

/-- The calls made before the load never contain a load. -/
theorem not_load_mem_moduleLookup {W : Type} (h : Host W) (w : W) (fname q : String) (b : Bool) :
    Call.ReadDependentFile q b ∉ (moduleLookup h w fname).2 := by
  unfold moduleLookup
  split <;> simp

/-- The export-file gate never calls the loader. -/
theorem not_load_mem_exportGate {W : Type} (h : Host W) (w : W) (path q : String) (b : Bool) :
    Call.ReadDependentFile q b ∉ (exportGate h w path).2.1 := by
  unfold exportGate
  split
  · split
    · split <;> simp
    · simp
  · simp

/-- A validation error is returned through `SetError`, with no call made. -/
theorem InitialPass_of_invalid {W : Type} (h : Host W) (w : W) (args : List String)
    (e : String) (hv : validateArguments args = .error e) :
    InitialPass h w args = { ret := false, error := some e, calls := [], world := w } := by
  simp only [InitialPass, hv]

/-- One turn of the loop, for any tail. -/
theorem scanModifiers_cons (i : Nat) (st : Parsed) (a : String) (rest : List String) :
    scanModifiers i st (a :: rest) =
      if a = "OPTIONAL" then
        if st.optional then
          .error "called with invalid arguments: OPTIONAL used twice"
        else
          scanModifiers (i + 1) { st with optional := true } rest
      else if a = "RESULT_VARIABLE" then
        if st.resultVarName ≠ "" then
          .error "called with invalid arguments: only one result variable allowed"
        else
          match rest with
          | v :: rest2 => scanModifiers (i + 2) { st with resultVarName := v } rest2
          | [] => .error "called with no value for RESULT_VARIABLE."
      else if a = "NO_POLICY_SCOPE" then
        scanModifiers (i + 1) { st with noPolicyScope := true } rest
      else if i > 1 then
        .error ("called with invalid argument: " ++ a)
      else
        scanModifiers (i + 1) st rest := by
  rw [scanModifiers.eq_def]

/-- The statement of `scanModifiers_append` for prefixes of bounded length,
by induction on the bound. -/
theorem scanModifiers_append_bounded (rest : List String) :
    ∀ (n : Nat) (pre : List String), pre.length ≤ n →
      ∀ (i : Nat) (st st2 : Parsed), scanModifiers i st pre = .ok st2 →
        scanModifiers i st (pre ++ rest) = scanModifiers (i + pre.length) st2 rest := by
  intro n
  induction n with
  | zero =>
    intro pre hn i st st2 hs
    have hnil : pre = [] := List.length_eq_zero.mp (Nat.le_zero.mp hn)
    subst hnil
    simp only [scanModifiers, Except.ok.injEq] at hs
    simp [hs]
  | succ n ih =>
    intro pre hn i st st2 hs
    cases pre with
    | nil =>
      simp only [scanModifiers, Except.ok.injEq] at hs
      simp [hs]
    | cons a t =>
      simp only [List.length_cons] at hn
      rw [scanModifiers_cons] at hs
      rw [List.cons_append, scanModifiers_cons]
      simp only [List.length_cons]
      split at hs
      · rename_i ha
        split at hs
        · exact absurd hs (by simp)
        · rename_i ho
          rw [if_pos ha, if_neg ho, ih t (by omega) _ _ _ hs]
          congr 1
          omega
      · rename_i ha
        split at hs
        · rename_i hr
          split at hs
          · exact absurd hs (by simp)
          · rename_i hn2
            cases t with
            | nil => exact absurd hs (by simp)
            | cons v t2 =>
              simp only at hs
              simp only [List.length_cons] at hn
              rw [if_neg ha, if_pos hr, if_neg hn2]
              simp only [List.cons_append, List.length_cons]
              rw [ih t2 (by omega) _ _ _ hs]
              congr 1
              omega
        · rename_i hr
          split at hs
          · rename_i hp
            rw [if_neg ha, if_neg hr, if_pos hp, ih t (by omega) _ _ _ hs]
            congr 1
            omega
          · rename_i hp
            split at hs
            · exact absurd hs (by simp)
            · rename_i hi
              rw [if_neg ha, if_neg hr, if_neg hp, if_neg hi, ih t (by omega) _ _ _ hs]
              congr 1
              omega

/-- A prefix that the loop scans without error leaves the loop in the state
it returned, at the index after the prefix. -/
theorem scanModifiers_append (pre rest : List String) (i : Nat) (st st2 : Parsed)
    (hs : scanModifiers i st pre = .ok st2) :
    scanModifiers i st (pre ++ rest) = scanModifiers (i + pre.length) st2 rest :=
  scanModifiers_append_bounded rest pre.length pre (Nat.le_refl _) i st st2 hs

/-- The loop never changes `fname`. -/
theorem scanModifiers_fname_bounded :
    ∀ (n : Nat) (l : List String), l.length ≤ n →
      ∀ (i : Nat) (st st2 : Parsed), scanModifiers i st l = .ok st2 → st2.fname = st.fname := by
  intro n
  induction n with
  | zero =>
    intro l hn i st st2 hs
    have hnil : l = [] := List.length_eq_zero.mp (Nat.le_zero.mp hn)
    subst hnil
    simp only [scanModifiers, Except.ok.injEq] at hs
    rw [hs]
  | succ n ih =>
    intro l hn i st st2 hs
    cases l with
    | nil =>
      simp only [scanModifiers, Except.ok.injEq] at hs
      rw [hs]
    | cons a t =>
      simp only [List.length_cons] at hn
      rw [scanModifiers_cons] at hs
      split at hs
      · split at hs
        · exact absurd hs (by simp)
        · exact (ih t (by omega) _ _ _ hs).trans rfl
      · split at hs
        · split at hs
          · exact absurd hs (by simp)
          · cases t with
            | nil => exact absurd hs (by simp)
            | cons v t2 =>
              simp only at hs
              simp only [List.length_cons] at hn
              exact (ih t2 (by omega) _ _ _ hs).trans rfl
        · split at hs
          · exact (ih t (by omega) _ _ _ hs).trans rfl
          · split at hs
            · exact absurd hs (by simp)
            · exact (ih t (by omega) _ _ _ hs).trans rfl

/-- The validated `fname` is the first argument, as it was written. -/
theorem validateArguments_fname (f : String) (rest : List String) (p : Parsed)
    (hv : validateArguments (f :: rest) = .ok p) : p.fname = f := by
  simp only [validateArguments] at hv
  split at hv
  · exact absurd hv (by simp)
  · exact scanModifiers_fname_bounded rest.length rest (Nat.le_refl _) 1 _ p hv

/-- When a list of at most four elements is split after an accepted prefix,
validation of the whole list continues the loop from the state of the
prefix. -/
theorem validateArguments_append (f : String) (pre rest : List String) (st : Parsed)
    (hlen : (f :: (pre ++ rest)).length ≤ 4)
    (hpre : validateArguments (f :: pre) = .ok st) :
    validateArguments (f :: (pre ++ rest)) = scanModifiers (1 + pre.length) st rest := by
  have h1 : ¬ (f :: pre).length > 4 := by
    simp only [List.length_cons, List.length_append] at hlen ⊢
    omega
  have h2 : ¬ (f :: (pre ++ rest)).length > 4 := by omega
  simp only [validateArguments, if_neg h1] at hpre
  simp only [validateArguments, if_neg h2]
  exact scanModifiers_append pre rest 1 _ st hpre

/-- The gate for a registered path under a status that forbids the include:
one fatal message, then the return at line 107. -/
theorem exportGate_of_fatal_status {W : Type} (h : Host W) (w : W) (path : String)
    (hx : h.IsExportedTargetsFile w path = true)
    (hs : h.GetPolicyStatus w = PolicyStatus.REQUIRED_IF_USED ∨
      h.GetPolicyStatus w = PolicyStatus.REQUIRED_ALWAYS ∨
      h.GetPolicyStatus w = PolicyStatus.NEW) :
    exportGate h w path =
      (true,
        [Call.IsExportedTargetsFile path, Call.GetPolicyStatus,
         Call.IssueMessage MessageType.FATAL_ERROR (exportText path "may")],
        h.IssueMessage MessageType.FATAL_ERROR (exportText path "may") w) := by
  rcases hs with hs | hs | hs <;> simp [exportGate, hx, hs, policySwitch]

/-- The gate for a registered path under `OLD`: no message, then the
regeneration. -/
theorem exportGate_of_OLD {W : Type} (h : Host W) (w : W) (path : String)
    (hx : h.IsExportedTargetsFile w path = true)
    (hs : h.GetPolicyStatus w = PolicyStatus.OLD) :
    exportGate h w path =
      (false,
        [Call.IsExportedTargetsFile path, Call.GetPolicyStatus,
         Call.CreateGenerationObjects, Call.GenerateImportFile path],
        h.GenerateImportFile path (h.CreateGenerationObjects w)) := by
  simp [exportGate, hx, hs, policySwitch]

/-- The gate for a registered path under `WARN`: one author warning, then
the regeneration. -/
theorem exportGate_of_WARN {W : Type} (h : Host W) (w : W) (path : String)
    (hx : h.IsExportedTargetsFile w path = true)
    (hs : h.GetPolicyStatus w = PolicyStatus.WARN) :
    exportGate h w path =
      (false,
        [Call.IsExportedTargetsFile path, Call.GetPolicyStatus,
         Call.IssueMessage MessageType.AUTHOR_WARNING
           (h.GetPolicyWarning ++ "\n" ++ exportText path "should"),
         Call.CreateGenerationObjects, Call.GenerateImportFile path],
        h.GenerateImportFile path (h.CreateGenerationObjects
          (h.IssueMessage MessageType.AUTHOR_WARNING
            (h.GetPolicyWarning ++ "\n" ++ exportText path "should") w))) := by
  simp [exportGate, hx, hs, policySwitch]

/-- The text of the message, with the path in it. -/
theorem exportText_eq (path modal : String) :
    exportText path modal =
      "The file\n  " ++ (path ++ ("\nwas generated by the export() command.  It " ++ (modal ++
        " not be used as the argument to the include() command.  Use ALIAS targets instead to refer to targets by alternative names.\n"))) := by
  simp [exportText, String.append_assoc]

/-- After a fatal gate `InitialPass` returns `false` with the calls of the
module lookup and of the gate, and nothing else. -/
theorem InitialPass_of_fatal_status {W : Type} (h : Host W) (w : W) (args : List String)
    (p : Parsed) (hv : validateArguments args = .ok p) (hf : p.fname ≠ "")
    (hx : h.IsExportedTargetsFile w (resolvedPath h w p.fname) = true)
    (hs : h.GetPolicyStatus w = PolicyStatus.REQUIRED_IF_USED ∨
      h.GetPolicyStatus w = PolicyStatus.REQUIRED_ALWAYS ∨
      h.GetPolicyStatus w = PolicyStatus.NEW) :
    InitialPass h w args =
      { ret := false, error := none,
        calls := (moduleLookup h w p.fname).2 ++
          [Call.IsExportedTargetsFile (resolvedPath h w p.fname), Call.GetPolicyStatus,
           Call.IssueMessage MessageType.FATAL_ERROR
             (exportText (resolvedPath h w p.fname) "may")],
        world := h.IssueMessage MessageType.FATAL_ERROR
          (exportText (resolvedPath h w p.fname) "may") w } := by
  rw [InitialPass_of_valid h w args p hv hf, exportGate_of_fatal_status h w _ hx hs]

/-- The only error of the load stage is `could not find load file`, with the
`fname` the stage was given. -/
theorem loadAndBind_error {W : Type} (h : Host W) (p : Parsed) (fname fname_abs : String)
    (pre : List Call) (w : W) (e : String)
    (he : (loadAndBind h p fname fname_abs pre w).error = some e) :
    e = "could not find load file:\n  " ++ fname := by
  unfold loadAndBind at he
  simp only [apply_ite Outcome.error, ite_self] at he
  repeat' split at he
  all_goals
    first
    | (simp only [Option.some.injEq] at he
       exact he.symm)
    | exact absurd he (by simp)

/-- After a successful validation the only error `InitialPass` can set is
`could not find load file`, with the name left by the module lookup. -/
theorem InitialPass_error_of_valid {W : Type} (h : Host W) (w : W) (args : List String)
    (p : Parsed) (e : String) (hv : validateArguments args = .ok p)
    (he : (InitialPass h w args).error = some e) :
    e = "could not find load file:\n  " ++ (moduleLookup h w p.fname).1 := by
  by_cases hf : p.fname = ""
  · simp [InitialPass, hv, hf] at he
  · rw [InitialPass_of_valid h w args p hv hf] at he
    rcases hgate : exportGate h w (resolvedPath h w p.fname) with ⟨b, c, w1⟩
    rw [hgate] at he
    cases b
    · exact loadAndBind_error h p _ _ _ _ e he
    · simp at he

/-- The error of the load stage is not one of the errors of the validation,
which all start with `called with`. -/
theorem load_error_ne_called_with (x y : String) :
    "could not find load file:\n  " ++ x ≠ "called with " ++ y := by
  intro heq
  have hd := congrArg String.data heq
  simp at hd

/-- The error for an unknown argument is not the error for a second result
variable. -/
theorem unknown_argument_ne_duplicate (t : String) :
    "called with invalid argument: " ++ t ≠
      "called with invalid arguments: only one result variable allowed" := by
  intro heq
  have hd := congrArg String.data heq
  simp at hd

/-- From a state without a result variable name, at most one more argument
cannot set one. -/
theorem scanModifiers_short_name (k : Nat) (st p : Parsed) (rest : List String)
    (hres : st.resultVarName = "") (hlen : rest.length ≤ 1)
    (hs : scanModifiers k st rest = .ok p) : p.resultVarName = "" := by
  cases rest with
  | nil =>
    simp only [scanModifiers, Except.ok.injEq] at hs
    rw [← hs, hres]
  | cons y t =>
    have ht : t = [] := by
      cases t with
      | nil => rfl
      | cons z t2 => simp at hlen
    subst ht
    rw [scanModifiers_cons] at hs
    simp only [scanModifiers] at hs
    repeat' split at hs
    all_goals
      first
      | (cases hs
         exact hres)
      | cases hs

/-- From a state without a result variable name, at most one more argument
cannot be rejected as a second result variable. -/
theorem scanModifiers_short_not_duplicate (k : Nat) (st : Parsed) (rest : List String)
    (hres : st.resultVarName = "") (hlen : rest.length ≤ 1) :
    scanModifiers k st rest ≠
      .error "called with invalid arguments: only one result variable allowed" := by
  cases rest with
  | nil => simp [scanModifiers]
  | cons y t =>
    have ht : t = [] := by
      cases t with
      | nil => rfl
      | cons z t2 => simp at hlen
    subst ht
    rw [scanModifiers_cons]
    simp only [scanModifiers]
    intro hs
    repeat' split at hs
    all_goals
      first
      | contradiction
      | (injection hs with hs2
         exact unknown_argument_ne_duplicate y hs2)
      | simp at hs

/-- A specifier followed by at most one argument has no result variable. -/
theorem validateArguments_short_name (f : String) (pre : List String) (st : Parsed)
    (hlen : pre.length ≤ 1) (hv : validateArguments (f :: pre) = .ok st) :
    st.resultVarName = "" := by
  simp only [validateArguments] at hv
  split at hv
  · exact absurd hv (by simp)
  · exact scanModifiers_short_name 1 _ st pre rfl hlen hv

/-- Every call of the export-file gate is about the path it was given. -/
theorem mem_exportGate_calls {W : Type} (h : Host W) (w : W) (path : String) (c : Call)
    (hc : c ∈ (exportGate h w path).2.1) :
    c = Call.IsExportedTargetsFile path ∨ c = Call.GetPolicyStatus ∨
      (∃ t text, c = Call.IssueMessage t text) ∨ c = Call.CreateGenerationObjects ∨
      c = Call.GenerateImportFile path := by
  unfold exportGate at hc
  split at hc
  · split at hc
    · split at hc <;> simp at hc <;> aesop
    · simp at hc
      aesop
  · simp at hc
    simp [hc]

/-- The calls of the load stage come after those made before it, and each of
them is about `fname_abs`, the sentinel or the fatal-error flag. -/
theorem loadAndBind_calls {W : Type} (h : Host W) (p : Parsed) (fname : String)
    (pre : List Call) (w : W) :
    ∃ extra : List Call,
      (loadAndBind h p fname (h.CollapseFullPath fname h.GetCurrentSourceDirectory) pre w).calls
          = pre ++ extra ∧
        ∀ c ∈ extra,
          c = Call.FileExists (h.CollapseFullPath fname h.GetCurrentSourceDirectory) ∨
          c = Call.ReadDependentFile (c_str (h.CollapseFullPath fname h.GetCurrentSourceDirectory))
                p.noPolicyScope ∨
          c = Call.AddDefinition p.resultVarName
                (c_str (h.CollapseFullPath fname h.GetCurrentSourceDirectory)) ∨
          c = Call.AddDefinition p.resultVarName "NOTFOUND" ∨
          c = Call.GetFatalErrorOccured := by
  generalize hpath : h.CollapseFullPath fname h.GetCurrentSourceDirectory = path
  unfold loadAndBind
  simp only [hpath]
  cases hopt : p.optional <;> cases hex : h.FileExists w path <;>
    cases hrd : (h.ReadDependentFile (c_str path) p.noPolicyScope w).1 <;>
    by_cases hR : p.resultVarName = "" <;>
    simp [hopt, hex, hrd, hR] <;>
    (try split) <;> simp

/-- Without a result variable name the load stage binds nothing. -/
theorem loadAndBind_no_binding {W : Type} (h : Host W) (p : Parsed) (fname fname_abs : String)
    (pre : List Call) (w : W) (hR : p.resultVarName = "") (n v : String)
    (hc : Call.AddDefinition n v ∈ (loadAndBind h p fname fname_abs pre w).calls) :
    Call.AddDefinition n v ∈ pre := by
  unfold loadAndBind at hc
  generalize h.CollapseFullPath fname h.GetCurrentSourceDirectory = path at hc
  cases hopt : p.optional <;> cases hex : h.FileExists w path <;>
    cases hrd : (h.ReadDependentFile (c_str path) p.noPolicyScope w).1 <;>
    simp [hopt, hex, hrd, hR] at hc <;>
    (try split at hc) <;> simp_all

/-- Validated arguments without a result variable name bind nothing, on any
path through `InitialPass`. -/
theorem InitialPass_no_binding {W : Type} (h : Host W) (w : W) (args : List String)
    (p : Parsed) (hv : validateArguments args = .ok p) (hR : p.resultVarName = "")
    (n v : String) : Call.AddDefinition n v ∉ (InitialPass h w args).calls := by
  intro hc
  by_cases hf : p.fname = ""
  · simp [InitialPass, hv, hf] at hc
  · rw [InitialPass_of_valid h w args p hv hf] at hc
    have hg := mem_exportGate_calls h w (resolvedPath h w p.fname) (Call.AddDefinition n v)
    have hm : Call.AddDefinition n v ∉ (moduleLookup h w p.fname).2 := by
      unfold moduleLookup
      split <;> simp
    rcases hgate : exportGate h w (resolvedPath h w p.fname) with ⟨b, c, w1⟩
    rw [hgate] at hc hg
    have hpre : Call.AddDefinition n v ∉ (moduleLookup h w p.fname).2 ++ c := by
      intro hmem
      rcases List.mem_append.mp hmem with h1 | h1
      · exact hm h1
      · have := hg h1
        simp at this
    cases b
    · exact hpre (loadAndBind_no_binding h p _ _ _ _ hR n v hc)
    · exact hpre hc

/-! C1 - C4: load and binding -/

/-- C2, as stated, fails: with the fatal-error flag already raised, a missing
file included without `OPTIONAL` and with `RESULT_VARIABLE R` makes the load
fail, `R` is bound to `NOTFOUND`, and `InitialPass` still returns `true`
without any error. -/
theorem load_failure_with_fatal_flag_succeeds :
    validateArguments ["b.cmake", "RESULT_VARIABLE", "R"] =
        .ok { fname := "b.cmake", optional := false, noPolicyScope := false,
              resultVarName := "R" } ∧
      sampleHost.IsExportedTargetsFile fatalWorld (resolvedPath sampleHost fatalWorld "b.cmake")
        = false ∧
      sampleHost.FileExists fatalWorld (resolvedPath sampleHost fatalWorld "b.cmake") = false ∧
      (sampleHost.ReadDependentFile (c_str (resolvedPath sampleHost fatalWorld "b.cmake")) false
        fatalWorld).1 = false ∧
      (InitialPass sampleHost fatalWorld ["b.cmake", "RESULT_VARIABLE", "R"]).ret = true ∧
      (InitialPass sampleHost fatalWorld ["b.cmake", "RESULT_VARIABLE", "R"]).error = none ∧
      Call.AddDefinition "R" "NOTFOUND" ∈
        (InitialPass sampleHost fatalWorld ["b.cmake", "RESULT_VARIABLE", "R"]).calls :=
  ⟨rfl, by decide, by decide, by decide, by decide, by decide, by decide⟩

/-- C2, amended: when the arguments pass validation with a non-empty
specifier, without `OPTIONAL` and with a non-empty result variable `R`, the
resolved path is not a registered export file, the load of it (handed over as
a C string) fails and the fatal-error flag is not set once `R` has been bound,
`InitialPass` returns
`false` with the error `could not find load file`, and the binding of `R` to
`NOTFOUND` comes before the read of the flag and the failure. -/
theorem load_failure_binds_notfound_and_fails {W : Type} (h : Host W) (w : W)
    (args : List String) (p : Parsed)
    (hv : validateArguments args = .ok p) (hf : p.fname ≠ "")
    (hopt : p.optional = false) (hR : p.resultVarName ≠ "")
    (hx : h.IsExportedTargetsFile w (resolvedPath h w p.fname) = false)
    (hload : (h.ReadDependentFile (c_str (resolvedPath h w p.fname)) p.noPolicyScope w).1 = false)
    (hfatal : h.GetFatalErrorOccured (h.AddDefinition p.resultVarName "NOTFOUND"
      (h.ReadDependentFile (c_str (resolvedPath h w p.fname)) p.noPolicyScope w).2) = false) :
    InitialPass h w args =
      { ret := false,
        error := some ("could not find load file:\n  " ++ (moduleLookup h w p.fname).1),
        calls := (moduleLookup h w p.fname).2 ++
          [Call.IsExportedTargetsFile (resolvedPath h w p.fname),
           Call.ReadDependentFile (c_str (resolvedPath h w p.fname)) p.noPolicyScope,
           Call.AddDefinition p.resultVarName "NOTFOUND",
           Call.GetFatalErrorOccured],
        world := h.AddDefinition p.resultVarName "NOTFOUND"
          (h.ReadDependentFile (c_str (resolvedPath h w p.fname)) p.noPolicyScope w).2 } := by
  rw [InitialPass_of_not_exported h w args p hv hf hx]
  simp only [resolvedPath] at hload hfatal
  simp [loadAndBind, hopt, hR, hload, hfatal, resolvedPath]

/-- C2, amended, on `include(b.cmake RESULT_VARIABLE R)` where `/src/b.cmake` is missing
and no fatal error is flagged. -/
theorem load_failure_binds_notfound_and_fails_witness :
    InitialPass sampleHost sampleWorld ["b.cmake", "RESULT_VARIABLE", "R"] =
      { ret := false, error := some "could not find load file:\n  b.cmake",
        calls := [Call.GetModulesFile "b.cmake.cmake", Call.IsExportedTargetsFile "/src/b.cmake",
                  Call.ReadDependentFile "/src/b.cmake" false,
                  Call.AddDefinition "R" "NOTFOUND", Call.GetFatalErrorOccured],
        world := { sampleWorld with defs := [("R", "NOTFOUND")] } } :=
  (load_failure_binds_notfound_and_fails sampleHost sampleWorld
    ["b.cmake", "RESULT_VARIABLE", "R"]
    { fname := "b.cmake", optional := false, noPolicyScope := false, resultVarName := "R" }
    rfl (by decide) rfl (by decide) (by decide) (by decide) (by decide)).trans (by decide)

/-- C3: when the arguments pass validation with a non-empty specifier, with
`OPTIONAL` and with a non-empty result variable `R`, and the resolved path is
not a registered export file and does not exist, `InitialPass` returns `true`
without an error, the loader is not called and the only binding is `R` to
`NOTFOUND`. -/
theorem optional_missing_binds_notfound {W : Type} (h : Host W) (w : W)
    (args : List String) (p : Parsed)
    (hv : validateArguments args = .ok p) (hf : p.fname ≠ "")
    (hopt : p.optional = true) (hR : p.resultVarName ≠ "")
    (hx : h.IsExportedTargetsFile w (resolvedPath h w p.fname) = false)
    (hex : h.FileExists w (resolvedPath h w p.fname) = false) :
    InitialPass h w args =
      { ret := true, error := none,
        calls := (moduleLookup h w p.fname).2 ++
          [Call.IsExportedTargetsFile (resolvedPath h w p.fname),
           Call.FileExists (resolvedPath h w p.fname),
           Call.AddDefinition p.resultVarName "NOTFOUND"],
        world := h.AddDefinition p.resultVarName "NOTFOUND" w } := by
  rw [InitialPass_of_not_exported h w args p hv hf hx]
  simp only [resolvedPath] at hex
  simp [loadAndBind, hopt, hR, hex, resolvedPath]

/-- C3 on `include(b.cmake OPTIONAL RESULT_VARIABLE R)` where `/src/b.cmake` is missing. -/
theorem optional_missing_binds_notfound_witness :
    InitialPass sampleHost sampleWorld ["b.cmake", "OPTIONAL", "RESULT_VARIABLE", "R"] =
      { ret := true, error := none,
        calls := [Call.GetModulesFile "b.cmake.cmake", Call.IsExportedTargetsFile "/src/b.cmake",
                  Call.FileExists "/src/b.cmake", Call.AddDefinition "R" "NOTFOUND"],
        world := { sampleWorld with defs := [("R", "NOTFOUND")] } } :=
  (optional_missing_binds_notfound sampleHost sampleWorld
    ["b.cmake", "OPTIONAL", "RESULT_VARIABLE", "R"]
    { fname := "b.cmake", optional := true, noPolicyScope := false, resultVarName := "R" }
    rfl (by decide) rfl (by decide) (by decide) (by decide)).trans (by decide)

/-- C4: when the arguments pass validation with a non-empty specifier and the
export-file gate does not abort, `InitialPass` returns `false` exactly when the
load was attempted and failed, `OPTIONAL` was not given and the fatal-error flag
is not set; it then reports `could not find load file`, and in every other case
it returns `true` without an error. -/
theorem fails_iff_load_failed_mandatory_no_fatal {W : Type} (h : Host W) (w : W)
    (args : List String) (p : Parsed)
    (hv : validateArguments args = .ok p) (hf : p.fname ≠ "")
    (hg : (exportGate h w (resolvedPath h w p.fname)).1 = false) :
    ((InitialPass h w args).ret = false ↔
        (Call.ReadDependentFile (c_str (resolvedPath h w p.fname)) p.noPolicyScope ∈
            (InitialPass h w args).calls ∧
          (h.ReadDependentFile (c_str (resolvedPath h w p.fname)) p.noPolicyScope
            (exportGate h w (resolvedPath h w p.fname)).2.2).1 = false ∧
          p.optional = false ∧
          h.GetFatalErrorOccured (InitialPass h w args).world = false)) ∧
      ((InitialPass h w args).ret = false →
        (InitialPass h w args).error =
          some ("could not find load file:\n  " ++ (moduleLookup h w p.fname).1)) ∧
      ((InitialPass h w args).ret = true → (InitialPass h w args).error = none) := by
  rw [InitialPass_of_gate_open h w args p hv hf hg]
  have hm := not_load_mem_moduleLookup h w p.fname (resolvedPath h w p.fname) p.noPolicyScope
  have he := not_load_mem_exportGate h w (resolvedPath h w p.fname) (resolvedPath h w p.fname)
    p.noPolicyScope
  generalize (exportGate h w (resolvedPath h w p.fname)).2.2 = w1 at *
  generalize (exportGate h w (resolvedPath h w p.fname)).2.1 = c at *
  generalize (moduleLookup h w p.fname).2 = c0 at *
  have hp : h.CollapseFullPath (moduleLookup h w p.fname).1 h.GetCurrentSourceDirectory =
      resolvedPath h w p.fname := rfl
  generalize resolvedPath h w p.fname = path at *
  unfold loadAndBind
  simp only [hp]
  cases hopt : p.optional <;> cases hex : h.FileExists w1 path <;>
    cases hrd : (h.ReadDependentFile (c_str path) p.noPolicyScope w1).1 <;>
    by_cases hR : p.resultVarName = "" <;>
    simp [hopt, hex, hrd, hR, hm, he] <;>
    split <;> simp_all

/-- C4 on `include(b.cmake)` where `/src/b.cmake` is missing: failure without the
fatal-error flag, and no error when the call returns `true` with the flag raised. -/
theorem fails_iff_load_failed_mandatory_no_fatal_witness :
    (InitialPass sampleHost sampleWorld ["b.cmake"]).ret = false ∧
      (InitialPass sampleHost sampleWorld ["b.cmake"]).error =
        some "could not find load file:\n  b.cmake" ∧
      ((InitialPass sampleHost fatalWorld ["b.cmake"]).ret = true →
        (InitialPass sampleHost fatalWorld ["b.cmake"]).error = none) :=
  have t := fails_iff_load_failed_mandatory_no_fatal sampleHost sampleWorld ["b.cmake"]
    { fname := "b.cmake", optional := false, noPolicyScope := false, resultVarName := "" }
    rfl (by decide) (by decide)
  have r := t.1.mpr ⟨by decide, by decide, rfl, by decide⟩
  ⟨r, (t.2.1 r).trans (by decide),
    (fails_iff_load_failed_mandatory_no_fatal sampleHost fatalWorld ["b.cmake"]
      { fname := "b.cmake", optional := false, noPolicyScope := false, resultVarName := "" }
      rfl (by decide) (by decide)).2.2⟩

/-! C5: module lookup -/

/-- C6: an argument list with no element or with more than four elements makes
`InitialPass` return `false` with the error `called with wrong number of
arguments`, whatever the tokens are, and nothing else happens. -/
theorem wrong_argument_count_fails {W : Type} (h : Host W) (w : W) (args : List String)
    (hn : args.length = 0 ∨ 4 < args.length) :
    InitialPass h w args =
      { ret := false,
        error := some "called with wrong number of arguments.  include() only takes one file.",
        calls := [], world := w } := by
  cases args with
  | nil => rfl
  | cons f rest =>
    have h4 : 4 < (f :: rest).length := by
      rcases hn with h0 | h4
      · simp at h0
      · exact h4
    simp only [InitialPass, validateArguments, gt_iff_lt, if_pos h4]

/-- C6 on a list of five elements. -/
theorem wrong_argument_count_fails_witness :
    InitialPass sampleHost sampleWorld
        ["a.cmake", "OPTIONAL", "NO_POLICY_SCOPE", "RESULT_VARIABLE", "R"] =
      { ret := false,
        error := some "called with wrong number of arguments.  include() only takes one file.",
        calls := [], world := sampleWorld } :=
  wrong_argument_count_fails sampleHost sampleWorld
    ["a.cmake", "OPTIONAL", "NO_POLICY_SCOPE", "RESULT_VARIABLE", "R"] (Or.inr (by decide))

/-- C7, as stated, fails: the full documented form, with `OPTIONAL`,
`NO_POLICY_SCOPE` and `RESULT_VARIABLE R` after the specifier, has five elements
and is rejected by the size check. -/
theorem full_documented_form_rejected :
    validateArguments ["a.cmake", "OPTIONAL", "NO_POLICY_SCOPE", "RESULT_VARIABLE", "R"] =
        .error "called with wrong number of arguments.  include() only takes one file." ∧
      (InitialPass sampleHost sampleWorld
          ["a.cmake", "OPTIONAL", "NO_POLICY_SCOPE", "RESULT_VARIABLE", "R"]).ret = false ∧
      (InitialPass sampleHost sampleWorld
          ["a.cmake", "OPTIONAL", "NO_POLICY_SCOPE", "RESULT_VARIABLE", "R"]).error =
        some "called with wrong number of arguments.  include() only takes one file." :=
  ⟨rfl, by decide, by decide⟩

/-- C7, amended: for every specifier and every non-empty variable name, the
specifier followed, in the documented order, by any choice of `OPTIONAL`,
`NO_POLICY_SCOPE` and `RESULT_VARIABLE <name>` other than all three together is
accepted by the validation, which returns exactly the chosen options. -/
theorem documented_forms_within_four_accepted (f name : String) (o n r : Bool)
    (hname : name ≠ "") (hsome : ¬ (o = true ∧ n = true ∧ r = true)) :
    validateArguments
        (f :: ((if o then ["OPTIONAL"] else []) ++ (if n then ["NO_POLICY_SCOPE"] else []) ++
          (if r then ["RESULT_VARIABLE", name] else []))) =
      .ok { fname := f, optional := o, noPolicyScope := n,
            resultVarName := if r then name else "" } := by
  have _ := hname
  cases o <;> cases n <;> cases r <;> simp at hsome <;>
    simp [validateArguments, scanModifiers]

/-- C7, amended, on `include(a.cmake OPTIONAL RESULT_VARIABLE R)`. -/
theorem documented_forms_within_four_accepted_witness :
    validateArguments ["a.cmake", "OPTIONAL", "RESULT_VARIABLE", "R"] =
      .ok { fname := "a.cmake", optional := true, noPolicyScope := false,
            resultVarName := "R" } :=
  documented_forms_within_four_accepted "a.cmake" "R" true false true (by decide) (by decide)

/-- C8, as stated, fails: `OPTIONAL` occurs twice in each of these lists, and
the first is accepted (the first `OPTIONAL` is taken as the name of the result
variable), the second is accepted (the first element is the specifier), the
third fails on the unknown argument before the second `OPTIONAL` is reached,
and the fourth fails on the size check. -/
theorem OPTIONAL_twice_without_duplicate_error :
    validateArguments ["a.cmake", "RESULT_VARIABLE", "OPTIONAL", "OPTIONAL"] =
        .ok { fname := "a.cmake", optional := true, noPolicyScope := false,
              resultVarName := "OPTIONAL" } ∧
      validateArguments ["OPTIONAL", "OPTIONAL"] =
        .ok { fname := "OPTIONAL", optional := true, noPolicyScope := false,
              resultVarName := "" } ∧
      (InitialPass sampleHost sampleWorld ["a.cmake", "OPTIONAL", "x", "OPTIONAL"]).error =
        some "called with invalid argument: x" ∧
      (InitialPass sampleHost sampleWorld
          ["a.cmake", "OPTIONAL", "OPTIONAL", "NO_POLICY_SCOPE", "NO_POLICY_SCOPE"]).error =
        some "called with wrong number of arguments.  include() only takes one file." ∧
      (InitialPass sampleHost sampleWorld
          ["a.cmake", "RESULT_VARIABLE", "OPTIONAL", "OPTIONAL"]).ret = true :=
  ⟨rfl, rfl, by decide, by decide, by decide⟩

/-- C8, amended: for every argument list of at most four elements made of a
prefix that the validation accepts on its own with `OPTIONAL` set, followed by
a further `OPTIONAL` token and any other tokens, `InitialPass` returns `false`
with the error `OPTIONAL used twice` and calls nothing. -/
theorem second_OPTIONAL_after_accepted_prefix_fails {W : Type} (h : Host W) (w : W)
    (f : String) (pre post : List String) (st : Parsed)
    (hlen : (f :: (pre ++ "OPTIONAL" :: post)).length ≤ 4)
    (hpre : validateArguments (f :: pre) = .ok st) (hopt : st.optional = true) :
    InitialPass h w (f :: (pre ++ "OPTIONAL" :: post)) =
      { ret := false, error := some "called with invalid arguments: OPTIONAL used twice",
        calls := [], world := w } := by
  apply InitialPass_of_invalid
  rw [validateArguments_append f pre _ st hlen hpre, scanModifiers_cons]
  simp [hopt]

/-- C8, amended, on `include(a.cmake NO_POLICY_SCOPE OPTIONAL OPTIONAL)`. -/
theorem second_OPTIONAL_after_accepted_prefix_fails_witness :
    InitialPass sampleHost sampleWorld ["a.cmake", "NO_POLICY_SCOPE", "OPTIONAL", "OPTIONAL"] =
      { ret := false, error := some "called with invalid arguments: OPTIONAL used twice",
        calls := [], world := sampleWorld } :=
  second_OPTIONAL_after_accepted_prefix_fails sampleHost sampleWorld "a.cmake"
    ["NO_POLICY_SCOPE", "OPTIONAL"] []
    { fname := "a.cmake", optional := true, noPolicyScope := true, resultVarName := "" }
    (by decide) rfl rfl

/-- C9, as stated, fails: `RESULT_VARIABLE` occurs twice in each of these
lists, and the first two are accepted (the second occurrence is taken as the
name of the result variable), while the third, where the name given first is
empty, fails for the missing value and not as a duplicate. -/
theorem RESULT_VARIABLE_twice_without_duplicate_error :
    validateArguments ["a.cmake", "RESULT_VARIABLE", "RESULT_VARIABLE"] =
        .ok { fname := "a.cmake", optional := false, noPolicyScope := false,
              resultVarName := "RESULT_VARIABLE" } ∧
      validateArguments ["a.cmake", "RESULT_VARIABLE", "RESULT_VARIABLE", "OPTIONAL"] =
        .ok { fname := "a.cmake", optional := true, noPolicyScope := false,
              resultVarName := "RESULT_VARIABLE" } ∧
      (InitialPass sampleHost sampleWorld
          ["a.cmake", "RESULT_VARIABLE", "RESULT_VARIABLE"]).ret = true ∧
      (InitialPass sampleHost sampleWorld
          ["a.cmake", "RESULT_VARIABLE", "", "RESULT_VARIABLE"]).error =
        some "called with no value for RESULT_VARIABLE." :=
  ⟨rfl, rfl, by decide, by decide⟩

/-- C9, amended: for every argument list of at most four elements made of a
prefix that the validation accepts on its own with a non-empty result variable
name, followed by a further `RESULT_VARIABLE` token and any other tokens,
`InitialPass` returns `false` with the error `only one result variable allowed`
and calls nothing. -/
theorem second_RESULT_VARIABLE_after_accepted_prefix_fails {W : Type} (h : Host W) (w : W)
    (f : String) (pre post : List String) (st : Parsed)
    (hlen : (f :: (pre ++ "RESULT_VARIABLE" :: post)).length ≤ 4)
    (hpre : validateArguments (f :: pre) = .ok st) (hres : st.resultVarName ≠ "") :
    InitialPass h w (f :: (pre ++ "RESULT_VARIABLE" :: post)) =
      { ret := false,
        error := some "called with invalid arguments: only one result variable allowed",
        calls := [], world := w } := by
  apply InitialPass_of_invalid
  rw [validateArguments_append f pre _ st hlen hpre, scanModifiers_cons]
  simp [hres]

/-- C9, amended, on `include(a.cmake RESULT_VARIABLE R RESULT_VARIABLE)`. -/
theorem second_RESULT_VARIABLE_after_accepted_prefix_fails_witness :
    InitialPass sampleHost sampleWorld ["a.cmake", "RESULT_VARIABLE", "R", "RESULT_VARIABLE"] =
      { ret := false,
        error := some "called with invalid arguments: only one result variable allowed",
        calls := [], world := sampleWorld } :=
  second_RESULT_VARIABLE_after_accepted_prefix_fails sampleHost sampleWorld "a.cmake"
    ["RESULT_VARIABLE", "R"] []
    { fname := "a.cmake", optional := false, noPolicyScope := false, resultVarName := "R" }
    (by decide) rfl (by decide)

/-- C10, as stated, fails: each of these lists ends in `RESULT_VARIABLE`, and
the first is accepted (its only element is the specifier), the second fails as
a duplicate result variable, and the third fails on the duplicate `OPTIONAL`
before the last token is reached. -/
theorem trailing_RESULT_VARIABLE_without_missing_value_error :
    validateArguments ["RESULT_VARIABLE"] =
        .ok { fname := "RESULT_VARIABLE", optional := false, noPolicyScope := false,
              resultVarName := "" } ∧
      (InitialPass sampleHost sampleWorld ["RESULT_VARIABLE"]).error =
        some "could not find load file:\n  RESULT_VARIABLE" ∧
      (InitialPass sampleHost sampleWorld
          ["a.cmake", "RESULT_VARIABLE", "R", "RESULT_VARIABLE"]).error =
        some "called with invalid arguments: only one result variable allowed" ∧
      (InitialPass sampleHost sampleWorld
          ["a.cmake", "OPTIONAL", "OPTIONAL", "RESULT_VARIABLE"]).error =
        some "called with invalid arguments: OPTIONAL used twice" :=
  ⟨rfl, by decide, by decide, by decide⟩

/-- C10, amended: for every argument list of at most four elements made of a
prefix that the validation accepts on its own without a non-empty result
variable name, followed by a last `RESULT_VARIABLE` token, `InitialPass`
returns `false` with the error `called with no value for RESULT_VARIABLE.` and
calls nothing. -/
theorem trailing_RESULT_VARIABLE_after_accepted_prefix_fails {W : Type} (h : Host W) (w : W)
    (f : String) (pre : List String) (st : Parsed)
    (hlen : (f :: (pre ++ ["RESULT_VARIABLE"])).length ≤ 4)
    (hpre : validateArguments (f :: pre) = .ok st) (hres : st.resultVarName = "") :
    InitialPass h w (f :: (pre ++ ["RESULT_VARIABLE"])) =
      { ret := false, error := some "called with no value for RESULT_VARIABLE.",
        calls := [], world := w } := by
  apply InitialPass_of_invalid
  rw [validateArguments_append f pre _ st hlen hpre, scanModifiers_cons]
  simp [hres]

/-- C10, amended, on `include(a.cmake OPTIONAL RESULT_VARIABLE)`. -/
theorem trailing_RESULT_VARIABLE_after_accepted_prefix_fails_witness :
    InitialPass sampleHost sampleWorld ["a.cmake", "OPTIONAL", "RESULT_VARIABLE"] =
      { ret := false, error := some "called with no value for RESULT_VARIABLE.",
        calls := [], world := sampleWorld } :=
  trailing_RESULT_VARIABLE_after_accepted_prefix_fails sampleHost sampleWorld "a.cmake"
    ["OPTIONAL"]
    { fname := "a.cmake", optional := true, noPolicyScope := false, resultVarName := "" }
    (by decide) rfl rfl

/-! C11 - C13: unknown arguments, the ignored second argument, the empty name -/

/-- C11: in an argument list of at most four elements, when the scan has
accepted the specifier and at least one modifier and then meets, at a position
greater than 1, a token that is none of `OPTIONAL`, `RESULT_VARIABLE` and
`NO_POLICY_SCOPE`, `InitialPass` returns `false` with the error
`called with invalid argument: ` followed by that token, and calls nothing. -/
theorem unknown_token_after_position_one_fails {W : Type} (h : Host W) (w : W)
    (f t : String) (pre post : List String) (st : Parsed)
    (hlen : (f :: (pre ++ t :: post)).length ≤ 4)
    (hpre : validateArguments (f :: pre) = .ok st) (hpos : 1 < 1 + pre.length)
    (h1 : t ≠ "OPTIONAL") (h2 : t ≠ "RESULT_VARIABLE") (h3 : t ≠ "NO_POLICY_SCOPE") :
    InitialPass h w (f :: (pre ++ t :: post)) =
      { ret := false, error := some ("called with invalid argument: " ++ t),
        calls := [], world := w } := by
  apply InitialPass_of_invalid
  rw [validateArguments_append f pre _ st hlen hpre, scanModifiers_cons]
  simp [h1, h2, h3, hpos]

/-- C11 on `include(a.cmake OPTIONAL extra)`. -/
theorem unknown_token_after_position_one_fails_witness :
    InitialPass sampleHost sampleWorld ["a.cmake", "OPTIONAL", "extra"] =
      { ret := false, error := some "called with invalid argument: extra",
        calls := [], world := sampleWorld } :=
  unknown_token_after_position_one_fails sampleHost sampleWorld "a.cmake" "extra"
    ["OPTIONAL"] []
    { fname := "a.cmake", optional := true, noPolicyScope := false, resultVarName := "" }
    (by decide) rfl (by decide) (by decide) (by decide) (by decide)

/-- C12: for every specifier `f` and every token `t` that is none of
`OPTIONAL`, `RESULT_VARIABLE` and `NO_POLICY_SCOPE`, the arguments `[f, t]` are
validated to the same options as `[f]`, and `InitialPass` on `[f, t]` is equal
to `InitialPass` on `[f]` in the same world: same result, same error, same
calls, same final world. -/
theorem second_argument_ignored {W : Type} (h : Host W) (w : W) (f t : String)
    (h1 : t ≠ "OPTIONAL") (h2 : t ≠ "RESULT_VARIABLE") (h3 : t ≠ "NO_POLICY_SCOPE") :
    validateArguments [f, t] =
        .ok { fname := f, optional := false, noPolicyScope := false, resultVarName := "" } ∧
      validateArguments [f, t] = validateArguments [f] ∧
      InitialPass h w [f, t] = InitialPass h w [f] := by
  have hv : validateArguments [f, t] = validateArguments [f] := by
    simp [validateArguments, scanModifiers, h1, h2, h3]
  exact ⟨by simp [validateArguments, scanModifiers, h1, h2, h3], hv,
    by simp only [InitialPass, hv]⟩

/-- C12 on `include(a.cmake extra)`. -/
theorem second_argument_ignored_witness :
    InitialPass sampleHost sampleWorld ["a.cmake", "extra"] =
      InitialPass sampleHost sampleWorld ["a.cmake"] :=
  (second_argument_ignored sampleHost sampleWorld "a.cmake" "extra"
    (by decide) (by decide) (by decide)).2.2

/-- C13, as stated, fails: with an empty first element the other arguments are
still validated first, so a duplicate `OPTIONAL` or a fifth argument makes
`InitialPass` return `false` without any warning. -/
theorem empty_name_with_invalid_modifiers_fails :
    InitialPass sampleHost sampleWorld ["", "OPTIONAL", "OPTIONAL"] =
        { ret := false, error := some "called with invalid arguments: OPTIONAL used twice",
          calls := [], world := sampleWorld } ∧
      InitialPass sampleHost sampleWorld ["", "OPTIONAL", "x"] =
        { ret := false, error := some "called with invalid argument: x",
          calls := [], world := sampleWorld } ∧
      (InitialPass sampleHost sampleWorld
          ["", "OPTIONAL", "NO_POLICY_SCOPE", "RESULT_VARIABLE", "R"]).ret = false :=
  ⟨by decide, by decide, by decide⟩

/-- C13, amended: for every argument list that passes validation and whose
first element is the empty string, whatever the modifiers, `InitialPass`
returns `true` without an error, its only call is the author warning
`include() given empty file name (ignored).`, so that nothing is loaded and
no variable is bound. -/
theorem empty_name_warns_and_succeeds {W : Type} (h : Host W) (w : W)
    (rest : List String) (p : Parsed)
    (hv : validateArguments ("" :: rest) = .ok p) :
    InitialPass h w ("" :: rest) =
      { ret := true, error := none,
        calls := [Call.IssueMessage MessageType.AUTHOR_WARNING
                    "include() given empty file name (ignored)."],
        world := h.IssueMessage MessageType.AUTHOR_WARNING
                    "include() given empty file name (ignored)." w } := by
  have hf : p.fname = "" := validateArguments_fname "" rest p hv
  simp only [InitialPass, hv, if_pos hf]

/-- C13, amended, on `include("" OPTIONAL RESULT_VARIABLE R)`. -/
theorem empty_name_warns_and_succeeds_witness :
    InitialPass sampleHost sampleWorld ["", "OPTIONAL", "RESULT_VARIABLE", "R"] =
      { ret := true, error := none,
        calls := [Call.IssueMessage MessageType.AUTHOR_WARNING
                    "include() given empty file name (ignored)."],
        world := { sampleWorld with
          messages := [(MessageType.AUTHOR_WARNING,
                        "include() given empty file name (ignored).")] } } :=
  (empty_name_warns_and_succeeds sampleHost sampleWorld ["OPTIONAL", "RESULT_VARIABLE", "R"]
    { fname := "", optional := true, noPolicyScope := false, resultVarName := "R" } rfl).trans
    (by decide)

/-! C14 - C17: the export-file gate -/

/-- C14: when the arguments pass validation with a non-empty specifier, the
resolved path is a registered export file and CMP0024 is `REQUIRED_IF_USED`,
`REQUIRED_ALWAYS` or `NEW`, `InitialPass` returns `false`; after the module
lookup its calls are the registry query, the status query and one
`FATAL_ERROR` message, whose text names the resolved path and says that the
file was generated by `export()` and may not be included; there is no load and
no binding, whatever `OPTIONAL` and `RESULT_VARIABLE` are. -/
theorem registered_export_file_rejected {W : Type} (h : Host W) (w : W)
    (args : List String) (p : Parsed)
    (hv : validateArguments args = .ok p) (hf : p.fname ≠ "")
    (hx : h.IsExportedTargetsFile w (resolvedPath h w p.fname) = true)
    (hs : h.GetPolicyStatus w = PolicyStatus.REQUIRED_IF_USED ∨
      h.GetPolicyStatus w = PolicyStatus.REQUIRED_ALWAYS ∨
      h.GetPolicyStatus w = PolicyStatus.NEW) :
    InitialPass h w args =
        { ret := false, error := none,
          calls := (moduleLookup h w p.fname).2 ++
            [Call.IsExportedTargetsFile (resolvedPath h w p.fname), Call.GetPolicyStatus,
             Call.IssueMessage MessageType.FATAL_ERROR
               (exportText (resolvedPath h w p.fname) "may")],
          world := h.IssueMessage MessageType.FATAL_ERROR
            (exportText (resolvedPath h w p.fname) "may") w } ∧
      exportText (resolvedPath h w p.fname) "may" =
        "The file\n  " ++ resolvedPath h w p.fname ++
          "\nwas generated by the export() command.  It may not be used as the argument to the include() command.  Use ALIAS targets instead to refer to targets by alternative names.\n" := by
  refine ⟨InitialPass_of_fatal_status h w args p hv hf hx hs, ?_⟩
  rw [exportText_eq, String.append_assoc]
  rfl

/-- C14 on `include(exp.cmake OPTIONAL RESULT_VARIABLE R)` under `NEW`. -/
theorem registered_export_file_rejected_witness :
    (InitialPass sampleHost (exportWorld PolicyStatus.NEW)
        ["exp.cmake", "OPTIONAL", "RESULT_VARIABLE", "R"]).ret = false ∧
      (InitialPass sampleHost (exportWorld PolicyStatus.NEW)
        ["exp.cmake", "OPTIONAL", "RESULT_VARIABLE", "R"]).calls =
        [Call.GetModulesFile "exp.cmake.cmake", Call.IsExportedTargetsFile "/src/exp.cmake",
         Call.GetPolicyStatus,
         Call.IssueMessage MessageType.FATAL_ERROR
           "The file\n  /src/exp.cmake\nwas generated by the export() command.  It may not be used as the argument to the include() command.  Use ALIAS targets instead to refer to targets by alternative names.\n"] :=
  have t := (registered_export_file_rejected sampleHost (exportWorld PolicyStatus.NEW)
    ["exp.cmake", "OPTIONAL", "RESULT_VARIABLE", "R"]
    { fname := "exp.cmake", optional := true, noPolicyScope := false, resultVarName := "R" }
    rfl (by decide) (by decide) (Or.inr (Or.inr rfl))).1
  ⟨by rw [t], by rw [t]; rfl⟩

/-- C15, as stated, fails: under `NEW` the include of the registered export
file returns `false` after the fatal message, and neither
`CreateGenerationObjects` nor `GenerateImportFile` has been called; the file
has not been generated. -/
theorem no_regeneration_under_NEW_example :
    sampleHost.IsExportedTargetsFile (exportWorld PolicyStatus.NEW)
        (resolvedPath sampleHost (exportWorld PolicyStatus.NEW) "exp.cmake") = true ∧
      (InitialPass sampleHost (exportWorld PolicyStatus.NEW) ["exp.cmake"]).ret = false ∧
      Call.CreateGenerationObjects ∉
        (InitialPass sampleHost (exportWorld PolicyStatus.NEW) ["exp.cmake"]).calls ∧
      Call.GenerateImportFile "/src/exp.cmake" ∉
        (InitialPass sampleHost (exportWorld PolicyStatus.NEW) ["exp.cmake"]).calls ∧
      (InitialPass sampleHost (exportWorld PolicyStatus.NEW) ["exp.cmake"]).world.files =
        (exportWorld PolicyStatus.NEW).files :=
  ⟨by decide, by decide, by decide, by decide, by decide⟩

/-- C15, amended: when the arguments pass validation with a non-empty
specifier, the resolved path is a registered export file and CMP0024 is `NEW`,
the regeneration step is not triggered: `InitialPass` returns `false` right
after the fatal message, `CreateGenerationObjects` and `GenerateImportFile` are
not among its calls, and the world it leaves is the one left by the
message. -/
theorem no_regeneration_under_NEW {W : Type} (h : Host W) (w : W)
    (args : List String) (p : Parsed)
    (hv : validateArguments args = .ok p) (hf : p.fname ≠ "")
    (hx : h.IsExportedTargetsFile w (resolvedPath h w p.fname) = true)
    (hs : h.GetPolicyStatus w = PolicyStatus.NEW) :
    (InitialPass h w args).ret = false ∧
      Call.CreateGenerationObjects ∉ (InitialPass h w args).calls ∧
      (∀ q, Call.GenerateImportFile q ∉ (InitialPass h w args).calls) ∧
      (InitialPass h w args).calls.getLast? =
        some (Call.IssueMessage MessageType.FATAL_ERROR
          (exportText (resolvedPath h w p.fname) "may")) ∧
      (InitialPass h w args).world =
        h.IssueMessage MessageType.FATAL_ERROR (exportText (resolvedPath h w p.fname) "may") w := by
  rw [InitialPass_of_fatal_status h w args p hv hf hx (Or.inr (Or.inr hs))]
  have hm : ∀ c ∈ (moduleLookup h w p.fname).2, ∃ n, c = Call.GetModulesFile n := by
    intro c hc
    unfold moduleLookup at hc
    split at hc <;> simp at hc
    exact ⟨_, hc⟩
  refine ⟨rfl, ?_, ?_, ?_, rfl⟩
  · intro hc
    simp only [List.mem_append, List.mem_cons, reduceCtorEq, List.mem_singleton, or_self,
      List.not_mem_nil, or_false] at hc
    obtain ⟨n, hn⟩ := hm _ hc
    exact absurd hn (by simp)
  · intro q hc
    simp only [List.mem_append, List.mem_cons, reduceCtorEq, List.mem_singleton, or_self,
      List.not_mem_nil, or_false] at hc
    obtain ⟨n, hn⟩ := hm _ hc
    exact absurd hn (by simp)
  · simp [List.getLast?_append]

/-- C15, amended, on `include(exp.cmake)` under `NEW`. -/
theorem no_regeneration_under_NEW_witness :
    (InitialPass sampleHost (exportWorld PolicyStatus.NEW) ["exp.cmake"]).ret = false ∧
      Call.CreateGenerationObjects ∉
        (InitialPass sampleHost (exportWorld PolicyStatus.NEW) ["exp.cmake"]).calls :=
  have t := no_regeneration_under_NEW sampleHost (exportWorld PolicyStatus.NEW) ["exp.cmake"]
    { fname := "exp.cmake", optional := false, noPolicyScope := false, resultVarName := "" }
    rfl (by decide) (by decide) rfl
  ⟨t.1, t.2.1⟩

/-- C16: when the arguments pass validation with a non-empty specifier, the
resolved path is a registered export file and CMP0024 is `OLD`, the gate makes
the two queries, issues no message and calls `CreateGenerationObjects` and
`GenerateImportFile` once, for the resolved path; `InitialPass` then is the
load stage `loadAndBind`, run in the world left by the regeneration, the same
stage with the same options and path that runs for a path that is not
registered; the calls after the gate are only the existence test of the path,
the load and the binding of its C string (or of `NOTFOUND`) and the read of the
fatal-error flag. -/
theorem registered_export_file_under_OLD_loads {W : Type} (h : Host W) (w : W)
    (args : List String) (p : Parsed)
    (hv : validateArguments args = .ok p) (hf : p.fname ≠ "")
    (hx : h.IsExportedTargetsFile w (resolvedPath h w p.fname) = true)
    (hs : h.GetPolicyStatus w = PolicyStatus.OLD) :
    InitialPass h w args =
        loadAndBind h p (moduleLookup h w p.fname).1 (resolvedPath h w p.fname)
          ((moduleLookup h w p.fname).2 ++
            [Call.IsExportedTargetsFile (resolvedPath h w p.fname), Call.GetPolicyStatus,
             Call.CreateGenerationObjects, Call.GenerateImportFile (resolvedPath h w p.fname)])
          (h.GenerateImportFile (resolvedPath h w p.fname) (h.CreateGenerationObjects w)) ∧
      (∃ extra : List Call,
        (InitialPass h w args).calls =
            (moduleLookup h w p.fname).2 ++
              [Call.IsExportedTargetsFile (resolvedPath h w p.fname), Call.GetPolicyStatus,
               Call.CreateGenerationObjects,
               Call.GenerateImportFile (resolvedPath h w p.fname)] ++ extra ∧
          ∀ c ∈ extra,
            c = Call.FileExists (resolvedPath h w p.fname) ∨
            c = Call.ReadDependentFile (c_str (resolvedPath h w p.fname)) p.noPolicyScope ∨
            c = Call.AddDefinition p.resultVarName (c_str (resolvedPath h w p.fname)) ∨
            c = Call.AddDefinition p.resultVarName "NOTFOUND" ∨
            c = Call.GetFatalErrorOccured) ∧
      (∀ u : W, h.IsExportedTargetsFile u (resolvedPath h u p.fname) = false →
        moduleLookup h u p.fname = moduleLookup h w p.fname →
        InitialPass h u args =
          loadAndBind h p (moduleLookup h w p.fname).1 (resolvedPath h w p.fname)
            ((moduleLookup h w p.fname).2 ++
              [Call.IsExportedTargetsFile (resolvedPath h w p.fname)]) u) := by
  have key : InitialPass h w args =
      loadAndBind h p (moduleLookup h w p.fname).1 (resolvedPath h w p.fname)
        ((moduleLookup h w p.fname).2 ++
          [Call.IsExportedTargetsFile (resolvedPath h w p.fname), Call.GetPolicyStatus,
           Call.CreateGenerationObjects, Call.GenerateImportFile (resolvedPath h w p.fname)])
        (h.GenerateImportFile (resolvedPath h w p.fname) (h.CreateGenerationObjects w)) := by
    rw [InitialPass_of_valid h w args p hv hf, exportGate_of_OLD h w _ hx hs]
  refine ⟨key, ?_, ?_⟩
  · rw [key]
    exact loadAndBind_calls h p (moduleLookup h w p.fname).1 _ _
  · intro u hu hm
    have hp : resolvedPath h u p.fname = resolvedPath h w p.fname := by
      simp only [resolvedPath, hm]
    rw [InitialPass_of_not_exported h u args p hv hf hu, hm, hp]

/-- C16 on `include(exp.cmake RESULT_VARIABLE R)` under `OLD`: the file is
generated, loaded and bound, and no message is issued. -/
theorem registered_export_file_under_OLD_loads_witness :
    InitialPass sampleHost (exportWorld PolicyStatus.OLD) ["exp.cmake", "RESULT_VARIABLE", "R"] =
      { ret := true, error := none,
        calls := [Call.GetModulesFile "exp.cmake.cmake", Call.IsExportedTargetsFile "/src/exp.cmake",
                  Call.GetPolicyStatus, Call.CreateGenerationObjects,
                  Call.GenerateImportFile "/src/exp.cmake",
                  Call.ReadDependentFile "/src/exp.cmake" false,
                  Call.AddDefinition "R" "/src/exp.cmake"],
        world := { exportWorld PolicyStatus.OLD with
          files := ["/src/exp.cmake", "/src/a.cmake", "/modules/Mod.cmake"],
          defs := [("R", "/src/exp.cmake")] } } :=
  ((registered_export_file_under_OLD_loads sampleHost (exportWorld PolicyStatus.OLD)
    ["exp.cmake", "RESULT_VARIABLE", "R"]
    { fname := "exp.cmake", optional := false, noPolicyScope := false, resultVarName := "R" }
    rfl (by decide) (by decide) rfl).1).trans (by decide)

/-- C17: for arguments that pass validation with a non-empty specifier and a
resolved path that is a registered export file, run in the same world once with
CMP0024 at `WARN` and once at `OLD`, and with the same answers of the
existence test, of the loader and of the fatal-error flag in both runs: the
result and the error are the same, and the calls are the same (regeneration,
existence test, load, bindings) except for one `AUTHOR_WARNING` message that
`WARN` issues after the status query; its text is the policy warning followed
by the text that names the resolved path and says that the file was generated
by `export()` and should not be included; no other message is issued. -/
theorem WARN_is_OLD_plus_one_author_warning {W : Type} (h : Host W) (w : W)
    (args : List String) (p : Parsed)
    (hv : validateArguments args = .ok p) (hf : p.fname ≠ "")
    (hx : h.IsExportedTargetsFile w (resolvedPath h w p.fname) = true)
    (hex : h.FileExists
        (h.GenerateImportFile (resolvedPath h w p.fname) (h.CreateGenerationObjects
          (h.IssueMessage MessageType.AUTHOR_WARNING
            (h.GetPolicyWarning ++ "\n" ++ exportText (resolvedPath h w p.fname) "should") w)))
        (resolvedPath h w p.fname) =
      h.FileExists
        (h.GenerateImportFile (resolvedPath h w p.fname) (h.CreateGenerationObjects w))
        (resolvedPath h w p.fname))
    (hrd : (h.ReadDependentFile (c_str (resolvedPath h w p.fname)) p.noPolicyScope
        (h.GenerateImportFile (resolvedPath h w p.fname) (h.CreateGenerationObjects
          (h.IssueMessage MessageType.AUTHOR_WARNING
            (h.GetPolicyWarning ++ "\n" ++ exportText (resolvedPath h w p.fname) "should")
            w)))).1 =
      (h.ReadDependentFile (c_str (resolvedPath h w p.fname)) p.noPolicyScope
        (h.GenerateImportFile (resolvedPath h w p.fname) (h.CreateGenerationObjects w))).1)
    (hft : h.GetFatalErrorOccured (InitialPass (withStatus h PolicyStatus.WARN) w args).world =
      h.GetFatalErrorOccured (InitialPass (withStatus h PolicyStatus.OLD) w args).world) :
    (InitialPass (withStatus h PolicyStatus.WARN) w args).ret =
        (InitialPass (withStatus h PolicyStatus.OLD) w args).ret ∧
      (InitialPass (withStatus h PolicyStatus.WARN) w args).error =
        (InitialPass (withStatus h PolicyStatus.OLD) w args).error ∧
      (∃ rest : List Call,
        (InitialPass (withStatus h PolicyStatus.OLD) w args).calls =
            (moduleLookup h w p.fname).2 ++
              [Call.IsExportedTargetsFile (resolvedPath h w p.fname), Call.GetPolicyStatus] ++
              rest ∧
          (InitialPass (withStatus h PolicyStatus.WARN) w args).calls =
            (moduleLookup h w p.fname).2 ++
              [Call.IsExportedTargetsFile (resolvedPath h w p.fname), Call.GetPolicyStatus,
               Call.IssueMessage MessageType.AUTHOR_WARNING
                 (h.GetPolicyWarning ++ "\n" ++
                   exportText (resolvedPath h w p.fname) "should")] ++
              rest ∧
          ∀ t text, Call.IssueMessage t text ∉ (moduleLookup h w p.fname).2 ++ rest) ∧
      exportText (resolvedPath h w p.fname) "should" =
        "The file\n  " ++ resolvedPath h w p.fname ++
          "\nwas generated by the export() command.  It should not be used as the argument to the include() command.  Use ALIAS targets instead to refer to targets by alternative names.\n" := by
  have kO : InitialPass (withStatus h PolicyStatus.OLD) w args =
      loadAndBind h p (moduleLookup h w p.fname).1 (resolvedPath h w p.fname)
        ((moduleLookup h w p.fname).2 ++
          [Call.IsExportedTargetsFile (resolvedPath h w p.fname), Call.GetPolicyStatus,
           Call.CreateGenerationObjects, Call.GenerateImportFile (resolvedPath h w p.fname)])
        (h.GenerateImportFile (resolvedPath h w p.fname) (h.CreateGenerationObjects w)) := by
    rw [InitialPass_of_valid (withStatus h PolicyStatus.OLD) w args p hv hf,
      exportGate_of_OLD (withStatus h PolicyStatus.OLD) w
        (resolvedPath (withStatus h PolicyStatus.OLD) w p.fname) hx rfl]
    rfl
  have kW : InitialPass (withStatus h PolicyStatus.WARN) w args =
      loadAndBind h p (moduleLookup h w p.fname).1 (resolvedPath h w p.fname)
        ((moduleLookup h w p.fname).2 ++
          [Call.IsExportedTargetsFile (resolvedPath h w p.fname), Call.GetPolicyStatus,
           Call.IssueMessage MessageType.AUTHOR_WARNING
             (h.GetPolicyWarning ++ "\n" ++ exportText (resolvedPath h w p.fname) "should"),
           Call.CreateGenerationObjects, Call.GenerateImportFile (resolvedPath h w p.fname)])
        (h.GenerateImportFile (resolvedPath h w p.fname) (h.CreateGenerationObjects
          (h.IssueMessage MessageType.AUTHOR_WARNING
            (h.GetPolicyWarning ++ "\n" ++ exportText (resolvedPath h w p.fname) "should")
            w))) := by
    rw [InitialPass_of_valid (withStatus h PolicyStatus.WARN) w args p hv hf,
      exportGate_of_WARN (withStatus h PolicyStatus.WARN) w
        (resolvedPath (withStatus h PolicyStatus.WARN) w p.fname) hx rfl]
    rfl
  have hlk : ∀ t text, Call.IssueMessage t text ∉ (moduleLookup h w p.fname).2 := by
    intro t text hc
    unfold moduleLookup at hc
    split at hc <;> simp at hc
  have htext : exportText (resolvedPath h w p.fname) "should" =
      "The file\n  " ++ resolvedPath h w p.fname ++
        "\nwas generated by the export() command.  It should not be used as the argument to the include() command.  Use ALIAS targets instead to refer to targets by alternative names.\n" := by
    rw [exportText_eq, String.append_assoc]
    rfl
  rw [kO, kW] at hft ⊢
  have hp : h.CollapseFullPath (moduleLookup h w p.fname).1 h.GetCurrentSourceDirectory =
      resolvedPath h w p.fname := rfl
  refine ⟨?_, ?_, ?_, htext⟩
  all_goals
    generalize (h.GetPolicyWarning ++ "\n" ++ exportText (resolvedPath h w p.fname) "should")
      = text at *
    generalize (moduleLookup h w p.fname).2 = lk at *
    generalize resolvedPath h w p.fname = path at *
    generalize h.GenerateImportFile path (h.CreateGenerationObjects w) = wO at *
    generalize h.GenerateImportFile path (h.CreateGenerationObjects
      (h.IssueMessage MessageType.AUTHOR_WARNING text w)) = wW at *
    unfold loadAndBind at hft ⊢
    simp only [hp] at hft ⊢
    cases hopt : p.optional <;> cases hexO : h.FileExists wO path <;>
      cases hrdO : (h.ReadDependentFile (c_str path) p.noPolicyScope wO).1 <;>
      by_cases hR : p.resultVarName = "" <;>
      simp [hopt, hexO, hrdO, hR, hlk] at hex hrd hft ⊢ <;>
      (try simp only [apply_ite Outcome.world, ite_self] at hft) <;>
      (try simp_all) <;>
      (try (split <;> simp_all))

/-- C17 on `include(exp.cmake RESULT_VARIABLE R)`: same result and error under
`WARN` and under `OLD`, and the warning names `/src/exp.cmake`. -/
theorem WARN_is_OLD_plus_one_author_warning_witness :
    (InitialPass (withStatus sampleHost PolicyStatus.WARN) (exportWorld PolicyStatus.OLD)
        ["exp.cmake", "RESULT_VARIABLE", "R"]).ret =
      (InitialPass (withStatus sampleHost PolicyStatus.OLD) (exportWorld PolicyStatus.OLD)
        ["exp.cmake", "RESULT_VARIABLE", "R"]).ret ∧
      (InitialPass (withStatus sampleHost PolicyStatus.WARN) (exportWorld PolicyStatus.OLD)
        ["exp.cmake", "RESULT_VARIABLE", "R"]).error =
      (InitialPass (withStatus sampleHost PolicyStatus.OLD) (exportWorld PolicyStatus.OLD)
        ["exp.cmake", "RESULT_VARIABLE", "R"]).error :=
  have t := WARN_is_OLD_plus_one_author_warning sampleHost (exportWorld PolicyStatus.OLD)
    ["exp.cmake", "RESULT_VARIABLE", "R"]
    { fname := "exp.cmake", optional := false, noPolicyScope := false, resultVarName := "R" }
    rfl (by decide) (by decide) rfl rfl rfl
  ⟨t.1, t.2.1⟩

/-! C18 - C20: the text of the error, validation without effects, empty names -/

/-- C18, as stated, fails: `include(Locked)`, where the module search finds
`/modules/Locked.cmake` and the load of it fails, reports the path found by the
search and not the specifier `Locked` that the caller wrote. -/
theorem load_error_names_module_file :
    sampleHost.FileIsFullPath "Locked" = false ∧
      sampleHost.GetModulesFile lockedModuleWorld "Locked.cmake" = "/modules/Locked.cmake" ∧
      (InitialPass sampleHost lockedModuleWorld ["Locked"]).ret = false ∧
      (InitialPass sampleHost lockedModuleWorld ["Locked"]).error =
        some "could not find load file:\n  /modules/Locked.cmake" ∧
      (InitialPass sampleHost lockedModuleWorld ["Locked"]).error ≠
        some "could not find load file:\n  Locked" :=
  ⟨by decide, by decide, by decide, by decide, by decide⟩

/-- C18, amended: whenever `InitialPass`, on validated arguments with first
element `f`, sets an error, the error is `could not find load file:` followed
by the name left by the module lookup: the path returned by the module search
(for `f ++ ".cmake"`, handed over as a C string) when `f` is not a full path
and the search returned one, and otherwise `f`, the first argument as the
caller wrote it. -/
theorem load_error_names_effective_specifier {W : Type} (h : Host W) (w : W)
    (f : String) (rest : List String) (p : Parsed) (e : String)
    (hv : validateArguments (f :: rest) = .ok p)
    (he : (InitialPass h w (f :: rest)).error = some e) :
    e = "could not find load file:\n  " ++
        (if h.FileIsFullPath f = false ∧ h.GetModulesFile w (c_str (f ++ ".cmake")) ≠ ""
          then h.GetModulesFile w (c_str (f ++ ".cmake")) else f) ∧
      (h.FileIsFullPath f = true ∨ h.GetModulesFile w (c_str (f ++ ".cmake")) = "" →
        e = "could not find load file:\n  " ++ f) := by
  have hfn : p.fname = f := validateArguments_fname f rest p hv
  have hl : (moduleLookup h w f).1 =
      (if h.FileIsFullPath f = false ∧ h.GetModulesFile w (c_str (f ++ ".cmake")) ≠ ""
        then h.GetModulesFile w (c_str (f ++ ".cmake")) else f) := by
    unfold moduleLookup
    cases hfull : h.FileIsFullPath f <;>
      by_cases hm : h.GetModulesFile w (c_str (f ++ ".cmake")) = "" <;> simp [hm]
  have hE := InitialPass_error_of_valid h w (f :: rest) p e hv he
  rw [hfn, hl] at hE
  refine ⟨hE, ?_⟩
  intro hcase
  rw [hE]
  rcases hcase with hc | hc <;> simp [hc]

/-- C18, amended, on `include(b.cmake)` where no module is found and
`/src/b.cmake` is missing. -/
theorem load_error_names_effective_specifier_witness :
    (InitialPass sampleHost sampleWorld ["b.cmake"]).error =
      some ("could not find load file:\n  " ++ "b.cmake") :=
  have he : (InitialPass sampleHost sampleWorld ["b.cmake"]).error =
      some "could not find load file:\n  b.cmake" := by decide
  have t := load_error_names_effective_specifier sampleHost sampleWorld "b.cmake" []
    { fname := "b.cmake", optional := false, noPolicyScope := false, resultVarName := "" }
    "could not find load file:\n  b.cmake" rfl he
  he.trans (congrArg some (t.2 (Or.inr (by decide))))

/-- C19: whenever the error set by `InitialPass` is one of the errors of the
validation (wrong number of arguments, `OPTIONAL` used twice, only one result
variable allowed, no value for `RESULT_VARIABLE`, invalid argument), it was set
by the validation, `InitialPass` returned `false`, no call was made to the
makefile, the global generator or `cmSystemTools`, and the world is the one
the command started in. -/
theorem argument_errors_have_no_effect {W : Type} (h : Host W) (w : W)
    (args : List String) (e : String)
    (he : (InitialPass h w args).error = some e)
    (hshape :
      e = "called with wrong number of arguments.  include() only takes one file." ∨
      e = "called with invalid arguments: OPTIONAL used twice" ∨
      e = "called with invalid arguments: only one result variable allowed" ∨
      e = "called with no value for RESULT_VARIABLE." ∨
      ∃ t, e = "called with invalid argument: " ++ t) :
    validateArguments args = .error e ∧
      InitialPass h w args = { ret := false, error := some e, calls := [], world := w } := by
  have hcw : ∃ y, e = "called with " ++ y := by
    rcases hshape with hs | hs | hs | hs | ⟨t, hs⟩
    · exact ⟨"wrong number of arguments.  include() only takes one file.", hs.trans rfl⟩
    · exact ⟨"invalid arguments: OPTIONAL used twice", hs.trans rfl⟩
    · exact ⟨"invalid arguments: only one result variable allowed", hs.trans rfl⟩
    · exact ⟨"no value for RESULT_VARIABLE.", hs.trans rfl⟩
    · have hd : ("called with invalid argument: " : String) =
          "called with " ++ "invalid argument: " := rfl
      exact ⟨"invalid argument: " ++ t,
        hs.trans (by rw [hd, String.append_assoc])⟩
  obtain ⟨y, hy⟩ := hcw
  cases hval : validateArguments args with
  | error e2 =>
    have hi := InitialPass_of_invalid h w args e2 hval
    rw [hi] at he
    simp only [Option.some.injEq] at he
    subst he
    exact ⟨rfl, hi⟩
  | ok p =>
    have hE := InitialPass_error_of_valid h w args p e hval he
    rw [hy] at hE
    exact absurd hE.symm (load_error_ne_called_with _ _)

/-- C19 on `include(a.cmake OPTIONAL OPTIONAL)`. -/
theorem argument_errors_have_no_effect_witness :
    InitialPass sampleHost sampleWorld ["a.cmake", "OPTIONAL", "OPTIONAL"] =
      { ret := false, error := some "called with invalid arguments: OPTIONAL used twice",
        calls := [], world := sampleWorld } :=
  (argument_errors_have_no_effect sampleHost sampleWorld ["a.cmake", "OPTIONAL", "OPTIONAL"]
    "called with invalid arguments: OPTIONAL used twice" (by decide) (Or.inr (Or.inl rfl))).2

/-- C20, as stated, fails: in each of these lists a `RESULT_VARIABLE` is
followed by the empty string, and the first is rejected for an invalid argument
(the first `RESULT_VARIABLE` takes the second as its name and the empty string
is then an unknown argument), the second fails the size check, and the third
binds the variable `R` (its first element is the specifier, the empty string
is the ignored second argument, and `RESULT_VARIABLE R` follows). -/
theorem empty_name_after_RESULT_VARIABLE_examples :
    InitialPass sampleHost sampleWorld ["a.cmake", "RESULT_VARIABLE", "RESULT_VARIABLE", ""] =
        { ret := false, error := some "called with invalid argument: ",
          calls := [], world := sampleWorld } ∧
      InitialPass sampleHost sampleWorld
          ["a.cmake", "RESULT_VARIABLE", "", "OPTIONAL", "NO_POLICY_SCOPE"] =
        { ret := false,
          error := some "called with wrong number of arguments.  include() only takes one file.",
          calls := [], world := sampleWorld } ∧
      validateArguments ["RESULT_VARIABLE", "", "RESULT_VARIABLE", "R"] =
        .ok { fname := "RESULT_VARIABLE", optional := false, noPolicyScope := false,
              resultVarName := "R" } ∧
      Call.AddDefinition "R" "NOTFOUND" ∈
        (InitialPass sampleHost sampleWorld
          ["RESULT_VARIABLE", "", "RESULT_VARIABLE", "R"]).calls :=
  ⟨by decide, by decide, rfl, by decide⟩

/-- C20, amended: in an argument list of at most four elements, when the scan
has accepted the specifier and the modifiers before it and then meets
`RESULT_VARIABLE` followed by the empty string, the pair is accepted and
leaves the options as they were, without a result variable; `InitialPass` then
binds no variable on any path, and it does not fail with `only one result
variable allowed`: a `RESULT_VARIABLE` token after the pair is handled as a
first one (it is the last element, so that it fails for its missing value). -/
theorem empty_result_variable_name_is_no_request {W : Type} (h : Host W) (w : W)
    (f : String) (pre rest : List String) (st : Parsed)
    (hlen : (f :: (pre ++ "RESULT_VARIABLE" :: "" :: rest)).length ≤ 4)
    (hpre : validateArguments (f :: pre) = .ok st) :
    st.resultVarName = "" ∧
      validateArguments (f :: (pre ++ "RESULT_VARIABLE" :: "" :: rest)) =
        scanModifiers (1 + pre.length + 2) st rest ∧
      (∀ n v, Call.AddDefinition n v ∉
        (InitialPass h w (f :: (pre ++ "RESULT_VARIABLE" :: "" :: rest))).calls) ∧
      (InitialPass h w (f :: (pre ++ "RESULT_VARIABLE" :: "" :: rest))).error ≠
        some "called with invalid arguments: only one result variable allowed" ∧
      (∀ rest2, rest = "RESULT_VARIABLE" :: rest2 →
        (InitialPass h w (f :: (pre ++ "RESULT_VARIABLE" :: "" :: rest))).error =
          some "called with no value for RESULT_VARIABLE.") := by
  have hl : pre.length + rest.length ≤ 1 := by
    simp only [List.length_cons, List.length_append] at hlen
    omega
  have hres : st.resultVarName = "" :=
    validateArguments_short_name f pre st (by omega) hpre
  have hst : { st with resultVarName := "" } = st := by
    cases st
    simp only [Parsed.mk.injEq, true_and] at hres ⊢
    exact hres.symm
  have hval : validateArguments (f :: (pre ++ "RESULT_VARIABLE" :: "" :: rest)) =
      scanModifiers (1 + pre.length + 2) st rest := by
    rw [validateArguments_append f pre _ st hlen hpre, scanModifiers_cons]
    simp [hres, hst]
  refine ⟨hres, hval, ?_, ?_, ?_⟩
  · intro n v
    cases hsc : scanModifiers (1 + pre.length + 2) st rest with
    | error e2 =>
      rw [InitialPass_of_invalid h w _ e2 (hval.trans hsc)]
      simp
    | ok p =>
      exact InitialPass_no_binding h w _ p (hval.trans hsc)
        (scanModifiers_short_name _ st p rest hres (by omega) hsc) n v
  · intro he
    cases hsc : scanModifiers (1 + pre.length + 2) st rest with
    | error e2 =>
      rw [InitialPass_of_invalid h w _ e2 (hval.trans hsc)] at he
      simp only [Option.some.injEq] at he
      rw [he] at hsc
      exact scanModifiers_short_not_duplicate _ st rest hres (by omega) hsc
    | ok p =>
      have hE := InitialPass_error_of_valid h w _ p _ (hval.trans hsc) he
      have hd : ("called with invalid arguments: only one result variable allowed" : String) =
          "called with " ++ "invalid arguments: only one result variable allowed" := rfl
      rw [hd] at hE
      exact load_error_ne_called_with _ _ hE.symm
  · intro rest2 hr
    subst hr
    have hr2 : rest2 = [] := by
      cases rest2 with
      | nil => rfl
      | cons z t2 =>
        simp only [List.length_cons] at hl
        omega
    subst hr2
    have herr : validateArguments (f :: (pre ++ ["RESULT_VARIABLE", "", "RESULT_VARIABLE"])) =
        .error "called with no value for RESULT_VARIABLE." := by
      rw [hval, scanModifiers_cons]
      simp [hres]
    rw [InitialPass_of_invalid h w _ _ herr]

/-- C20, amended, on `include(a.cmake RESULT_VARIABLE "")`: the load succeeds
and nothing is bound. -/
theorem empty_result_variable_name_is_no_request_witness :
    validateArguments ["a.cmake", "RESULT_VARIABLE", ""] =
        .ok { fname := "a.cmake", optional := false, noPolicyScope := false,
              resultVarName := "" } ∧
      (∀ n v, Call.AddDefinition n v ∉
        (InitialPass sampleHost sampleWorld ["a.cmake", "RESULT_VARIABLE", ""]).calls) :=
  have t := empty_result_variable_name_is_no_request sampleHost sampleWorld "a.cmake" [] []
    { fname := "a.cmake", optional := false, noPolicyScope := false, resultVarName := "" }
    (by decide) rfl
  ⟨t.2.1, t.2.2.1⟩

end cmIncludeCommand
